import Mathlib

/-!
Verification of the cassandra_snapshotter backup/restore orchestration
engine (`cassandra_snapshotter/snapshotting.py`) against its
specification.  The Python source is shallowly embedded: pure helpers
become Lean functions, remote/filesystem effects become explicit
environment parameters (`Except`-valued step results), and executed
remote actions are collected into traces.
-/

namespace CassandraSnapshotter

/-! ## String helpers (embedding of the Python string operations used) -/

/-- Python `str.split(sep)` for a single-character separator, on the
underlying character list.  `split` of the empty string is `[[]]`,
matching Python's `"".split(",") == [""]`. -/
def chSplit (c : Char) : List Char → List (List Char)
  | [] => [[]]
  | x :: xs =>
    match chSplit c xs with
    | [] => [[]]
    | h :: t => if x = c then [] :: h :: t else (x :: h) :: t

/-- Python `str.split(sep)` for a one-character separator string. -/
def pySplit (s : String) (c : Char) : List String :=
  (chSplit c s.data).map String.mk

/-- Python truthiness of a string: nonempty. -/
def pyTruthyStr (s : String) : Bool := !s.data.isEmpty

/-- Does the string start with the given character (e.g. `'/'`)?
Used to embed `os.path.join`'s absolute-path check. -/
def headIs (c : Char) (s : String) : Bool :=
  s.data.head? = some c

/-- Does the string end with the given character? -/
def lastIs (c : Char) (s : String) : Bool :=
  s.data.getLast? = some c

/-- Embedding of Python `os.path.join(a, b)` (POSIX): an absolute second
component discards the first; otherwise a separator is inserted unless
`a` is empty or already ends with one. -/
def pyJoin2 (a b : String) : String :=
  if headIs '/' b then b
  else if a.data.isEmpty || lastIs '/' a then a ++ b
  else a ++ "/" ++ b

/-- `os.path.join` folded over several components. -/
def pyJoin (a : String) (rest : List String) : String :=
  rest.foldl pyJoin2 a

/-! ## Snapshot (manifest model)

`Snapshot.__init__` assigns `name` from the current UTC time
(`make_snapshot_name`); since the constructor's callers that matter here
(`load_manifest_file`) immediately overwrite `name`, the embedding takes
the name as a field directly. -/

structure Snapshot where
  name : String
  /-- the `_base_path` attribute (excluding the name segment) -/
  base_path : String
  s3_bucket : String
  hosts : List String
  keyspaces : String
  table : String
  deriving Repr, DecidableEq

/-! ## JSON records

The manifest is persisted through `json.dumps` / `json.loads`; the JSON
library is an external collaborator, so records are embedded at the
structured-value level. -/

inductive JVal where
  | str : String → JVal
  | arr : List JVal → JVal
  | obj : List (String × JVal) → JVal

/-- `Snapshot.dump_manifest_file`: the five-field manifest record. -/
def Snapshot.dump_manifest_file (s : Snapshot) : JVal :=
  .obj [("name", .str s.name),
        ("base_path", .str s.base_path),
        ("hosts", .arr (s.hosts.map .str)),
        ("keyspaces", .str s.keyspaces),
        ("table", .str s.table)]

/-- Decode a JSON value that must be a string (a non-string raises in
the Python caller's typed uses). -/
def JVal.asStr : JVal → Option String
  | .str s => some s
  | _ => none

/-- Decode a JSON array of strings. -/
def JVal.asStrList : JVal → Option (List String)
  | .arr xs => xs.mapM JVal.asStr
  | _ => none

/-- Field access `manifest_data[k]`: `KeyError` (or a non-object record)
becomes `none`, the exception the registry's population loop catches. -/
def JVal.field (j : JVal) (k : String) : Option JVal :=
  match j with
  | .obj kvs => kvs.lookup k
  | _ => none

/-- `Snapshot.load_manifest_file`: reads the five fields out of a parsed
manifest record; any missing or wrongly-shaped field raises, embedded as
`none`.  The fresh constructor-assigned name is overwritten by the
manifest's `name`. -/
def Snapshot.load_manifest_file (j : JVal) (s3_bucket : String) : Option Snapshot := do
  let base_path ← (← j.field "base_path").asStr
  let hosts ← (← j.field "hosts").asStrList
  let keyspaces ← (← j.field "keyspaces").asStr
  let table ← (← j.field "table").asStr
  let name ← (← j.field "name").asStr
  pure { name := name, base_path := base_path, s3_bucket := s3_bucket,
         hosts := hosts, keyspaces := keyspaces, table := table }

/-! ## Snapshot ordering (`unix_time_name` / `__cmp__`)

`unix_time_name` parses `name` with `strptime('%Y%m%d%H%M%S')` (raising
on malformed input, embedded as `none`) and converts via
`time.mktime(...) * 1000`; the conversion from a calendar date-time to
epoch seconds is embedded with the standard days-from-civil formula. -/

/-- Numeric value of a digit string. -/
def digitsToNat (cs : List Char) : Nat :=
  cs.foldl (fun a c => 10 * a + (c.toNat - 48)) 0

/-- Gregorian leap year. -/
def isLeapYear (y : Nat) : Bool :=
  y % 4 = 0 && (y % 100 ≠ 0 || y % 400 = 0)

/-- Days in a month (1-12). -/
def daysInMonth (y mo : Nat) : Nat :=
  if mo = 2 then (if isLeapYear y then 29 else 28)
  else if mo = 4 || mo = 6 || mo = 9 || mo = 11 then 30
  else 31

/-- Days from 1970-01-01 to the given civil date (days-from-civil
algorithm; `strptime` accepts four-digit years, all ≥ 0 here). -/
def daysFromCivil (y mo d : Nat) : Int :=
  let y' : Nat := if mo ≤ 2 then y - 1 else y
  let era : Nat := y' / 400
  let yoe : Nat := y' - era * 400
  let mp : Nat := if mo > 2 then mo - 3 else mo + 9
  let doy : Nat := (153 * mp + 2) / 5 + d - 1
  let doe : Nat := yoe * 365 + yoe / 4 - yoe / 100 + doy
  (era : Int) * 146097 + (doe : Int) - 719468

/-- `Snapshot.unix_time_name` on the raw name: milliseconds since epoch
if the name parses as a `%Y%m%d%H%M%S` timestamp, otherwise `none`
(Python raises `ValueError`). -/
def unixTimeOfName (name : String) : Option Int :=
  let cs := name.data
  if cs.length = 14 && cs.all (·.isDigit) then
    let y := digitsToNat (cs.take 4)
    let mo := digitsToNat ((cs.drop 4).take 2)
    let d := digitsToNat ((cs.drop 6).take 2)
    let h := digitsToNat ((cs.drop 8).take 2)
    let mi := digitsToNat ((cs.drop 10).take 2)
    let s := digitsToNat ((cs.drop 12).take 2)
    if 1 ≤ mo && mo ≤ 12 && 1 ≤ d && d ≤ daysInMonth y mo
        && h ≤ 23 && mi ≤ 59 && s ≤ 59 then
      some (1000 * (86400 * daysFromCivil y mo d + 3600 * (h : Int) + 60 * mi + s))
    else none
  else none

/-- `unix_time_name` of a snapshot. -/
def Snapshot.unix_time_name (s : Snapshot) : Option Int :=
  unixTimeOfName s.name

/-- Sort key used by `__cmp__` wherever the name parses (the registry
only sorts lists all of whose names parse, see `readS3List`). -/
def Snapshot.sortKey (s : Snapshot) : Int :=
  s.unix_time_name.getD 0

/-- The descending-recency order `sorted(..., reverse=True)` uses:
`a` before `b` iff `b`'s timestamp is at most `a`'s. -/
def snapDescOrder (a b : Snapshot) : Prop :=
  b.sortKey ≤ a.sortKey

instance : DecidableRel snapDescOrder := fun a b =>
  inferInstanceAs (Decidable (b.sortKey ≤ a.sortKey))

instance : IsTotal Snapshot snapDescOrder :=
  ⟨fun a b => le_total b.sortKey a.sortKey⟩

instance : IsTrans Snapshot snapDescOrder :=
  ⟨fun _ _ _ h1 h2 => le_trans h2 h1⟩

/-! ## SnapshotCollection (the registry)

`_read_s3` lists the bucket under the base path (delimiter `/`), drops
the root pseudo-entry, fetches + parses each snapshot directory's
`manifest.json` — skipping fetch failures (`S3ResponseError`) and parse
failures (`except Exception`) — and finally sorts descending with
`sorted(..., reverse=True)`, which compares via `unix_time_name` and so
raises if a surviving manifest's name does not parse. -/

/-- The descending stable sort `sorted(self.snapshots, reverse=True)`. -/
def sortSnapshotsDesc (l : List Snapshot) : List Snapshot :=
  l.insertionSort snapDescOrder

/-- The listing/fetching/parsing pipeline of `_read_s3`, lines 580-604:
list the bucket (the `paths` the delimiter listing returned), drop the
root pseudo-entry, and for each remaining snapshot directory fetch and
deserialize `<path>/manifest.json`; `fetchManifest` returning `none`
covers both a fetch error and malformed JSON (both skipped), as is a
record missing required fields. -/
def readS3Loaded (s3_bucket basePath : String) (paths : List String)
    (fetchManifest : String → Option JVal) : List Snapshot :=
  let pfx := if lastIs '/' basePath then basePath else basePath ++ "/"
  let snapPaths := paths.filter (· ≠ pfx)
  snapPaths.filterMap fun p =>
    (fetchManifest (p ++ "/" ++ "manifest.json")).bind fun j =>
      Snapshot.load_manifest_file j s3_bucket

/-- The snapshot list `_read_s3` stores: the loaded manifests, sorted
descending.  `none` embeds the uncaught `ValueError` raised from the
sort when a surviving manifest's name does not parse. -/
def readS3List (basePath s3_bucket : String) (paths : List String)
    (fetchManifest : String → Option JVal) : Option (List Snapshot) :=
  let loaded := readS3Loaded s3_bucket basePath paths fetchManifest
  if loaded.all (fun s => s.unix_time_name.isSome) then
    some (sortSnapshotsDesc loaded)
  else none

/-- Python truthiness of the `snapshots` attribute (`None` or a list):
`if self.snapshots: return` is false for `None` and for `[]`. -/
def pyTruthySnapshots : Option (List Snapshot) → Bool
  | none => false
  | some l => !l.isEmpty

/-- One call to `_read_s3` as a transition on the cached `snapshots`
attribute.  Returns the new attribute value, whether the object store
was listed, and whether the call raised (name-parse failure in the
sort; in that case the attribute keeps the unsorted appended list). -/
def readS3Step (basePath s3_bucket : String) (paths : List String)
    (fetchManifest : String → Option JVal) (st : Option (List Snapshot)) :
    Option (List Snapshot) × Bool × Bool :=
  if pyTruthySnapshots st then (st, false, false)
  else
    let loaded := readS3Loaded s3_bucket basePath paths fetchManifest
    if loaded.all (fun s => s.unix_time_name.isSome) then
      (some (sortSnapshotsDesc loaded), true, false)
    else (some loaded, true, true)

/-- `SnapshotCollection.get_snapshot_for` over the populated snapshot
list (iteration yields the cached, descending-sorted list): the loop
skips any snapshot whose `hosts`, `keyspaces` or `table` differs from
the query and returns the first one matching all three; falling off the
loop returns `None`. -/
def get_snapshot_for (snaps : List Snapshot) (hosts : List String)
    (keyspaces table : String) : Option Snapshot :=
  match snaps with
  | [] => none
  | s :: rest =>
    if s.hosts ≠ hosts then get_snapshot_for rest hosts keyspaces table
    else if s.keyspaces ≠ keyspaces then get_snapshot_for rest hosts keyspaces table
    else if s.table ≠ table then get_snapshot_for rest hosts keyspaces table
    else some s

/-- Does a snapshot match a `get_snapshot_for` query on all three
fields of the compatibility key? -/
def matchesQuery (s : Snapshot) (hosts : List String) (keyspaces table : String) : Prop :=
  s.hosts = hosts ∧ s.keyspaces = keyspaces ∧ s.table = table

instance (s : Snapshot) (hosts : List String) (keyspaces table : String) :
    Decidable (matchesQuery s hosts keyspaces table) :=
  inferInstanceAs (Decidable (_ ∧ _ ∧ _))

/-! ## Transfer/retry primitive (`download_snappy_key`)

The attempt body (streaming the key through the decompressor into the
destination file) is an external effect: `attempt i` is the outcome of
the `i`-th try.  On success the function returns `key.size`; each
failure increments the retry counter and, at `MAX_RETRY_COUNT`,
re-raises the last exception.  Falling off the `while` loop (returning
`None`, embedded as `.ok none`) is unreachable from a zero counter. -/

def MAX_RETRY_COUNT : Nat := 3

/-- The `while retry_count < MAX_RETRY_COUNT` loop of
`download_snappy_key`, parameterized by the retry counter. -/
def downloadLoop (attempt : Nat → Except String Unit) (size : Nat) :
    Nat → Except String (Option Nat)
  | r =>
    if _h : r < MAX_RETRY_COUNT then
      match attempt r with
      | .ok _ => .ok (some size)
      | .error e =>
        if r + 1 ≥ MAX_RETRY_COUNT then .error e
        else downloadLoop attempt size (r + 1)
    else .ok none
  termination_by r => MAX_RETRY_COUNT - r

/-- `download_snappy_key`: run the loop from a zero retry counter. -/
def download_snappy_key (attempt : Nat → Except String Unit) (size : Nat) :
    Except String (Option Nat) :=
  downloadLoop attempt size 0

/-! ## RestoreWorker -/

/-- `RestoreWorker.dst_from_key` (lines 271-284): the merge-directory
destination for a matched path, from the match's groups
(`group(1)` = source host alternative, `group(2)` = keyspace,
`group(3)` = table) and the path's final `os.path.sep`-separated
component.  `path_separator` is `os.path.sep`, `/` on the POSIX hosts
this runs on. -/
def baseNameOf (path : String) : String :=
  String.mk ((chSplit '/' path.data).getLastD [])

def dst_from_key (merge_dir g1 g2 g3 path : String) : String :=
  let mergeName := g1 ++ "_" ++ baseNameOf path
  pyJoin merge_dir [g2, g3, mergeName]

/-- `RestoreWorker._copy_key`: copy (an external effect that may raise
and is not retried), then return `os.path.getsize(key)`. -/
def copy_key (copyResult : Except String Unit) (size : Nat) :
    Except String (Option Nat) :=
  match copyResult with
  | .error e => .error e
  | .ok _ => .ok (some size)

/-- `RestoreWorker._download_key`: calls `download_snappy_key` and
falls off the end — its result is discarded and the method returns
`None`. -/
def download_key (attempt : Nat → Except String Unit) (size : Nat) :
    Except String (Option Nat) :=
  match download_snappy_key attempt size with
  | .error e => .error e
  | .ok _ => .ok none

/-! ## BackupWorker.snapshot orchestration

Each cluster-wide step either succeeds or raises; the environment fixes
every step's outcome and the embedding records the steps actually
executed, in order, together with the run's result.  `clear_cluster_snapshot`
takes the snapshot name (or the `__ALL_SNAPSHOTS__` sentinel) as its
argument. -/

def ALL_SNAPSHOTS : String := "__ALL_SNAPSHOTS__"

inductive Act where
  | clearBackups : Act
  | clearSnapshot : String → Act
  | startBackup : Act
  | upload : Act
  | writeRing : Act
  | writeManifest : Act
  | writeSchema : Act
  deriving Repr, DecidableEq

structure BackupEnv where
  clearBackups : Except String Unit
  clearSnapshot : String → Except String Unit
  startBackup : Except String Unit
  upload : Except String Unit
  writeRing : Except String Unit
  writeManifest : Except String Unit
  writeSchema : Except String Unit

/-- Sequencing with short-circuit on a raised exception, keeping the
trace of executed steps. -/
def andThen (st : List Act × Except String Unit)
    (k : List Act → List Act × Except String Unit) :
    List Act × Except String Unit :=
  match st with
  | (tr, .error e) => (tr, .error e)
  | (tr, .ok _) => k tr

/-- The optional pre-cleanups of `BackupWorker.snapshot` (lines
406-414): clearing node incremental-backup artifacts (only when both a
data path and a keyspace scope are set, otherwise skipped with a
warning), then clearing all pre-existing snapshots. -/
def backupPrelude (env : BackupEnv)
    (dataPathSet keyspacesSet deleteOld deleteBackups : Bool) :
    List Act × Except String Unit :=
  andThen
    (if deleteBackups && dataPathSet && keyspacesSet
     then ([Act.clearBackups], env.clearBackups)
     else ([], .ok ())) fun tr =>
  if deleteOld
  then (tr ++ [Act.clearSnapshot ALL_SNAPSHOTS], env.clearSnapshot ALL_SNAPSHOTS)
  else (tr, .ok ())

/-- The metadata publication tail of `BackupWorker.snapshot` (lines
428-431): ring description, manifest, optional schema. -/
def publishMeta (env : BackupEnv) (backupSchema : Bool) (tr : List Act) :
    List Act × Except String Unit :=
  andThen (tr ++ [Act.writeRing], env.writeRing) fun tr =>
  andThen (tr ++ [Act.writeManifest], env.writeManifest) fun tr =>
  if backupSchema then (tr ++ [Act.writeSchema], env.writeSchema)
  else (tr, .ok ())

/-- `BackupWorker.snapshot` (lines 401-431): optional pre-cleanups,
then the point-in-time snapshot step wrapped in
`try/except: clear_cluster_snapshot(name); raise`, then the upload step
wrapped in `try/finally: if not keep_new_snapshot: clear_cluster_snapshot(name)`,
then metadata publication.  A bare `raise` after a successful cleanup
re-raises the original exception; an exception inside the cleanup
replaces it. -/
def backupSnapshot (env : BackupEnv) (name : String)
    (dataPathSet keyspacesSet backupSchema keep deleteOld deleteBackups : Bool) :
    List Act × Except String Unit :=
  andThen (backupPrelude env dataPathSet keyspacesSet deleteOld deleteBackups) fun tr =>
  match env.startBackup with
  | .error e =>
    let tr := tr ++ [Act.startBackup, Act.clearSnapshot name]
    (match env.clearSnapshot name with
     | .error e2 => (tr, .error e2)
     | .ok _ => (tr, .error e))
  | .ok _ =>
  let tr := tr ++ [Act.startBackup]
  match env.upload with
  | .error e =>
    if keep then (tr ++ [Act.upload], .error e)
    else
      let tr := tr ++ [Act.upload, Act.clearSnapshot name]
      (match env.clearSnapshot name with
       | .error e2 => (tr, .error e2)
       | .ok _ => (tr, .error e))
  | .ok _ =>
  andThen
    (if keep then (tr ++ [Act.upload], .ok ())
     else (tr ++ [Act.upload, Act.clearSnapshot name], env.clearSnapshot name)) fun tr =>
  publishMeta env backupSchema tr

/-! ## BackupWorker.clear_node_backups

Lines 529-549.  The keyspace directories come from `keyspaces.split(",")`
when a keyspace scope is set, otherwise from a remote `find` over the
data path; for each keyspace directory the loop ASSIGNS `backups_dirs`
(it does not accumulate), and the delete commands run only after the
loop, over whatever the final assignment left. -/

def clear_node_backups (dataPath keyspaces table : String)
    (findTopDirs : List String) (findBackupsDirs : String → List String) :
    List String :=
  let ksDirs :=
    if pyTruthyStr keyspaces then pySplit keyspaces ','
    else findTopDirs
  let backupsDirs := ksDirs.foldl
    (fun _ ks =>
      let keyspaceDir := pyJoin2 dataPath ks
      if pyTruthyStr table then [keyspaceDir ++ "/" ++ table ++ "/" ++ "backups"]
      else findBackupsDirs keyspaceDir)
    []
  backupsDirs

/-! ## Theorems -/

/-- Decoding an all-strings JSON array recovers the strings. -/
theorem asStrList_map_str (l : List String) :
    JVal.asStrList (.arr (l.map JVal.str)) = some l := by
  induction l with
  | nil => rfl
  | cons x xs ih =>
    simp only [JVal.asStrList] at ih ⊢
    rw [List.map_cons, List.mapM_cons, ih]
    rfl

/-- C2: deserializing the record produced by serializing a Snapshot
(`load_manifest_file` applied to `dump_manifest_file`'s output, with the
same bucket) recovers the Snapshot: all five attributes (name, base
path, hosts, keyspaces, table) — and the bucket — are equal. -/
theorem manifest_roundtrip (s : Snapshot) :
    Snapshot.load_manifest_file s.dump_manifest_file s.s3_bucket = some s := by
  cases s with
  | mk name base_path s3_bucket hosts keyspaces table =>
    simp [Snapshot.load_manifest_file, Snapshot.dump_manifest_file, JVal.field,
      List.lookup, asStrList_map_str, JVal.asStr, bind, Option.bind]

/-- Unfolding `get_snapshot_for` one step: the three skip-tests of the
loop body amount to a single match on the compatibility key. -/
theorem get_snapshot_for_cons (s : Snapshot) (rest : List Snapshot)
    (hosts : List String) (ks t : String) :
    get_snapshot_for (s :: rest) hosts ks t =
      if matchesQuery s hosts ks t then some s
      else get_snapshot_for rest hosts ks t := by
  simp only [get_snapshot_for, matchesQuery]
  by_cases h1 : s.hosts = hosts <;> by_cases h2 : s.keyspaces = ks <;>
    by_cases h3 : s.table = t <;> simp [h1, h2, h3]

/-- C1: `get_snapshot_for` returns the first stored Snapshot (in the
registry's descending-recency iteration order) whose hosts, keyspaces
and table each exactly equal the query — a condition independent of the
snapshot's name — and returns `None` exactly when no stored Snapshot
matches on all three fields. -/
theorem get_snapshot_for_spec (l : List Snapshot) (hosts : List String)
    (ks t : String) :
    (get_snapshot_for l hosts ks t = none ↔
      ∀ s ∈ l, ¬ matchesQuery s hosts ks t) ∧
    (∀ s, get_snapshot_for l hosts ks t = some s →
      matchesQuery s hosts ks t ∧
      ∃ l1 l2, l = l1 ++ s :: l2 ∧ ∀ x ∈ l1, ¬ matchesQuery x hosts ks t) := by
  induction l with
  | nil => simp [get_snapshot_for]
  | cons a rest ih =>
    rw [get_snapshot_for_cons]
    by_cases ha : matchesQuery a hosts ks t
    · constructor
      · simp [ha]
      · intro s hs
        simp [ha] at hs
        subst hs
        exact ⟨ha, [], rest, rfl, by simp⟩
    · constructor
      · simp only [ha, if_neg, ite_false]
        rw [ih.1]
        constructor
        · intro h s hs
          rcases List.mem_cons.1 hs with h' | h'
          · subst h'; exact ha
          · exact h s h'
        · intro h s hs
          exact h s (List.mem_cons_of_mem _ hs)
      · intro s hs
        simp only [ha, ite_false] at hs
        obtain ⟨hm, l1, l2, hl, hfirst⟩ := ih.2 s hs
        refine ⟨hm, a :: l1, l2, by simp [hl], ?_⟩
        intro x hx
        rcases List.mem_cons.1 hx with h' | h'
        · subst h'; exact ha
        · exact hfirst x h'

/-- C3: a successfully populated registry list is sorted by descending
parsed name timestamp: whenever snapshot `a` appears before snapshot
`b`, `b`'s parsed timestamp is at most `a`'s (so of two snapshots with
distinct timestamps, e.g. names `20230101000000` and `20230601120000`,
the later-stamped one appears first). -/
theorem readS3List_sorted_desc (bp bk : String) (paths : List String)
    (fetch : String → Option JVal) (l : List Snapshot)
    (h : readS3List bp bk paths fetch = some l) :
    l.Pairwise (fun a b => ∀ ta tb, a.unix_time_name = some ta →
      b.unix_time_name = some tb → tb ≤ ta) := by
  simp only [readS3List] at h
  split at h
  case isFalse => exact absurd h (by simp)
  case isTrue hall =>
    obtain rfl : sortSnapshotsDesc (readS3Loaded bk bp paths fetch) = l :=
      Option.some.inj h
    have hperm := List.perm_insertionSort snapDescOrder (readS3Loaded bk bp paths fetch)
    have hsorted := List.sorted_insertionSort snapDescOrder (readS3Loaded bk bp paths fetch)
    have hmem : ∀ s ∈ sortSnapshotsDesc (readS3Loaded bk bp paths fetch),
        s.unix_time_name.isSome := by
      intro s hs
      have := hperm.mem_iff.1 hs
      simpa using List.all_eq_true.1 hall s this
    refine List.Pairwise.imp_of_mem ?_ hsorted
    intro a b hma hmb hab ta tb hta htb
    have ka : a.sortKey = ta := by simp [Snapshot.sortKey, hta]
    have kb : b.sortKey = tb := by simp [Snapshot.sortKey, htb]
    have : b.sortKey ≤ a.sortKey := hab
    rw [ka, kb] at this
    exact this

/-- A successful attempt inside the retry window returns the key's
size. -/
theorem downloadLoop_ok (attempt : Nat → Except String Unit) (size r : Nat)
    (h : r < MAX_RETRY_COUNT) (hok : attempt r = .ok ()) :
    downloadLoop attempt size r = .ok (some size) := by
  rw [downloadLoop]
  simp [h, hok]

/-- A failed attempt with retries remaining moves on to the next
attempt. -/
theorem downloadLoop_retry (attempt : Nat → Except String Unit) (size r : Nat)
    (e : String) (h : r + 1 < MAX_RETRY_COUNT) (he : attempt r = .error e) :
    downloadLoop attempt size r = downloadLoop attempt size (r + 1) := by
  rw [downloadLoop]
  simp [Nat.lt_of_succ_lt h, he, Nat.not_le.2 h]

/-- A failed attempt with the retry budget exhausted re-raises the last
exception. -/
theorem downloadLoop_raise (attempt : Nat → Except String Unit) (size r : Nat)
    (e : String) (h : r < MAX_RETRY_COUNT) (h2 : MAX_RETRY_COUNT ≤ r + 1)
    (he : attempt r = .error e) :
    downloadLoop attempt size r = .error e := by
  rw [downloadLoop]
  simp [h, he, h2]

/-- C7: `download_snappy_key` retries one item up to
`MAX_RETRY_COUNT = 3` attempts total: if the attempts before `k` fail
and attempt `k < 3` succeeds, the function returns the item's size (the
outcome is fixed without consulting any later attempt); if all three
attempts fail, the last exception is propagated to the caller. -/
theorem download_snappy_key_retry (attempt : Nat → Except String Unit) (size : Nat) :
    (∀ k, k < MAX_RETRY_COUNT → (∀ i, i < k → ∃ e, attempt i = .error e) →
      attempt k = .ok () →
      download_snappy_key attempt size = .ok (some size)) ∧
    (∀ e₀ e₁ e₂, attempt 0 = .error e₀ → attempt 1 = .error e₁ →
      attempt 2 = .error e₂ →
      download_snappy_key attempt size = .error e₂) := by
  constructor
  · intro k hk hfail hok
    unfold download_snappy_key
    have hk3 : k < 3 := hk
    interval_cases k
    · exact downloadLoop_ok attempt size 0 (by decide) hok
    · obtain ⟨e0, he0⟩ := hfail 0 (by decide)
      rw [downloadLoop_retry attempt size 0 e0 (by decide) he0]
      exact downloadLoop_ok attempt size 1 (by decide) hok
    · obtain ⟨e0, he0⟩ := hfail 0 (by decide)
      obtain ⟨e1, he1⟩ := hfail 1 (by decide)
      rw [downloadLoop_retry attempt size 0 e0 (by decide) he0,
        downloadLoop_retry attempt size 1 e1 (by decide) he1]
      exact downloadLoop_ok attempt size 2 (by decide) hok
  · intro e₀ e₁ e₂ he0 he1 he2
    unfold download_snappy_key
    rw [downloadLoop_retry attempt size 0 e₀ (by decide) he0,
      downloadLoop_retry attempt size 1 e₁ (by decide) he1]
    exact downloadLoop_raise attempt size 2 e₂ (by decide) (by decide) he2

/-- C9 (bug evidence): on a successful transfer of an object-store
item — here an item of size 7 whose first attempt succeeds —
`RestoreWorker._download_key` returns `None` (its body discards
`download_snappy_key`'s result and has no `return`), even though
`download_snappy_key` itself did return the item's size; only the
local-source `_copy_key` returns the size as the caller's
`read_bytes += size` accumulation requires. -/
theorem download_key_returns_none :
    download_key (fun _ => .ok ()) 7 = .ok none ∧
    download_snappy_key (fun _ => .ok ()) 7 = .ok (some 7) ∧
    copy_key (.ok ()) 7 = .ok (some 7) := by
  have h : download_snappy_key (fun _ => .ok ()) 7 = .ok (some 7) :=
    downloadLoop_ok (fun _ => .ok ()) 7 0 (by decide) rfl
  exact ⟨by rw [download_key, h], h, rfl⟩

/-- Folding a function that ignores its accumulator returns its value
on the last element of a nonempty list. -/
theorem foldl_ignore_acc {α β : Type _} (g : α → β) (l : List α) (h : l ≠ [])
    (d : α) (init : β) :
    l.foldl (fun _ x => g x) init = g (l.getLastD d) := by
  induction l generalizing init d with
  | nil => exact absurd rfl h
  | cons x xs ih =>
    cases xs with
    | nil => rfl
    | cons y ys =>
      rw [List.foldl_cons, ih (by simp) x]
      obtain ⟨v, hv⟩ := Option.isSome_iff_exists.1
        (List.getLast?_isSome.2 (by simp : (y :: ys) ≠ []))
      simp [List.getLastD, hv]

/-- C10: with a keyspace scope naming several keyspaces and an empty
table filter, `clear_node_backups` issues delete commands only over the
backups directories found under the LAST keyspace of the list — the
per-keyspace loop overwrites the collected list rather than
accumulating it, and deletion happens only after the loop. -/
theorem clear_node_backups_last_keyspace_only (dataPath ks table : String)
    (findTopDirs : List String) (findBackupsDirs : String → List String)
    (hks : pyTruthyStr ks = true) (htable : pyTruthyStr table = false)
    (hmulti : 1 < (pySplit ks ',').length) :
    clear_node_backups dataPath ks table findTopDirs findBackupsDirs =
      findBackupsDirs (pyJoin2 dataPath ((pySplit ks ',').getLastD "")) := by
  have hne : pySplit ks ',' ≠ [] := by
    intro hnil
    rw [hnil] at hmulti
    exact absurd hmulti (by decide)
  unfold clear_node_backups
  rw [hks]
  simp only [if_true, htable, Bool.false_eq_true, if_false]
  exact foldl_ignore_acc (fun k => findBackupsDirs (pyJoin2 dataPath k))
    (pySplit ks ',') hne "" []

/-- C8 (counterexample): when the first listing finds zero snapshots,
the cache is NOT reused — `if self.snapshots:` is false for the empty
list, so the second access lists the object store again (second
component `true` = the access performed a listing). -/
theorem readS3Step_relists_after_empty :
    ((readS3Step "base" "bk" [] (fun _ => none) none).1 = some [] ∧
      (readS3Step "base" "bk" [] (fun _ => none) none).2.1 = true) ∧
    (readS3Step "base" "bk" [] (fun _ => none)
      (readS3Step "base" "bk" [] (fun _ => none) none).1).2.1 = true := by
  decide

/-- C8 (amended): the first access to the registry performs a listing,
and — provided that first listing stored at least one snapshot — every
subsequent access reuses the cached list without listing again; a first
listing that stored zero snapshots is not cached. -/
theorem readS3Step_cache_amended (bp bk bp' bk' : String)
    (paths paths' : List String) (fetch fetch' : String → Option JVal) :
    (readS3Step bp bk paths fetch none).2.1 = true ∧
    (∀ l, (readS3Step bp bk paths fetch none).1 = some l → l ≠ [] →
      readS3Step bp' bk' paths' fetch' (some l) = (some l, false, false)) := by
  constructor
  · rw [readS3Step, if_neg (by decide)]
    dsimp only
    split <;> rfl
  · intro l _ hne
    rw [readS3Step]
    have : pyTruthySnapshots (some l) = true := by
      simp [pyTruthySnapshots, hne]
    rw [this]
    simp

/-- Sequencing after a successful step continues with its trace. -/
theorem andThen_ok (st : List Act × Except String Unit)
    (k : List Act → List Act × Except String Unit) (h : st.2 = .ok ()) :
    andThen st k = k st.1 := by
  obtain ⟨tr, r⟩ := st
  cases r with
  | error e => exact absurd h (by simp)
  | ok u => cases u; rfl

/-- When both optional pre-cleanup steps succeed, the prelude succeeds
and its trace holds only pre-cleanup actions. -/
theorem backupPrelude_ok (env : BackupEnv) (d k dOld dBak : Bool)
    (hcb : env.clearBackups = .ok ())
    (hca : env.clearSnapshot ALL_SNAPSHOTS = .ok ()) :
    (backupPrelude env d k dOld dBak).2 = .ok () ∧
    ∀ a ∈ (backupPrelude env d k dOld dBak).1,
      a = Act.clearBackups ∨ a = Act.clearSnapshot ALL_SNAPSHOTS := by
  unfold backupPrelude
  cases hc : (dBak && d && k) <;> cases dOld <;>
    simp [andThen, hc, hcb, hca]

/-- The publication tail only ever appends metadata actions to the
trace it is given. -/
theorem publishMeta_trace (env : BackupEnv) (b : Bool) (tr : List Act) :
    ∃ suf, (publishMeta env b tr).1 = tr ++ suf ∧
      ∀ a ∈ suf, a = Act.writeRing ∨ a = Act.writeManifest ∨ a = Act.writeSchema := by
  unfold publishMeta
  cases hr : env.writeRing with
  | error e => exact ⟨[Act.writeRing], by simp [andThen]⟩
  | ok u =>
    cases u
    rw [andThen_ok _ _ (by simp [hr])]
    cases hm : env.writeManifest with
    | error e => exact ⟨[Act.writeRing, Act.writeManifest], by simp [andThen]⟩
    | ok u =>
      cases u
      rw [andThen_ok _ _ (by simp [hm])]
      cases b with
      | false => exact ⟨[Act.writeRing, Act.writeManifest], by simp⟩
      | true =>
        exact ⟨[Act.writeRing, Act.writeManifest, Act.writeSchema], by simp⟩

/-- C4: in a full backup run, if the cluster-wide point-in-time
snapshot step raises (and the preceding optional cleanups and the
best-effort clear succeed), the orchestrator clears the just-created
snapshot by name immediately after the failed step, re-raises the
original error, and never executes the upload or any metadata
publication. -/
theorem backupSnapshot_start_failure (env : BackupEnv) (name : String)
    (d k b keep dOld dBak : Bool) (e : String)
    (hcb : env.clearBackups = .ok ())
    (hca : env.clearSnapshot ALL_SNAPSHOTS = .ok ())
    (hstart : env.startBackup = .error e)
    (hclean : env.clearSnapshot name = .ok ()) :
    (backupSnapshot env name d k b keep dOld dBak).2 = .error e ∧
    (∃ l1, (backupSnapshot env name d k b keep dOld dBak).1 =
      l1 ++ [Act.startBackup, Act.clearSnapshot name]) ∧
    Act.upload ∉ (backupSnapshot env name d k b keep dOld dBak).1 ∧
    Act.writeRing ∉ (backupSnapshot env name d k b keep dOld dBak).1 ∧
    Act.writeManifest ∉ (backupSnapshot env name d k b keep dOld dBak).1 ∧
    Act.writeSchema ∉ (backupSnapshot env name d k b keep dOld dBak).1 := by
  obtain ⟨hpok, hpmem⟩ := backupPrelude_ok env d k dOld dBak hcb hca
  have hb : backupSnapshot env name d k b keep dOld dBak =
      ((backupPrelude env d k dOld dBak).1 ++
        [Act.startBackup, Act.clearSnapshot name], .error e) := by
    unfold backupSnapshot
    rw [andThen_ok _ _ hpok, hstart, hclean]
  rw [hb]
  refine ⟨rfl, ⟨(backupPrelude env d k dOld dBak).1, rfl⟩, ?_, ?_, ?_, ?_⟩ <;>
    · intro hmem
      rcases List.mem_append.1 hmem with h' | h'
      · rcases hpmem _ h' with h'' | h'' <;> simp at h''
      · simp at h'

/-- C5: in a full backup run whose point-in-time snapshot step
succeeded, if `keep_new_snapshot` is false then the cluster-wide clear
of the new snapshot runs immediately after the upload step — whether
the upload succeeded or raised (the `finally` block) — and if
`keep_new_snapshot` is true the new snapshot is never cleared by
name. -/
theorem backupSnapshot_upload_cleanup (env : BackupEnv) (name : String)
    (d k b keep dOld dBak : Bool)
    (hcb : env.clearBackups = .ok ())
    (hca : env.clearSnapshot ALL_SNAPSHOTS = .ok ())
    (hstart : env.startBackup = .ok ())
    (hname : name ≠ ALL_SNAPSHOTS) :
    (keep = false → ∃ l1 l2, (backupSnapshot env name d k b keep dOld dBak).1 =
      l1 ++ Act.upload :: Act.clearSnapshot name :: l2) ∧
    (keep = true →
      Act.clearSnapshot name ∉ (backupSnapshot env name d k b keep dOld dBak).1) := by
  obtain ⟨hpok, hpmem⟩ := backupPrelude_ok env d k dOld dBak hcb hca
  unfold backupSnapshot
  rw [andThen_ok _ _ hpok, hstart]
  dsimp only
  constructor
  · intro hkeep
    subst hkeep
    cases hu : env.upload with
    | error e =>
      simp only [Bool.false_eq_true, if_false]
      cases hc : env.clearSnapshot name <;>
        exact ⟨(backupPrelude env d k dOld dBak).1 ++ [Act.startBackup], [],
          by simp⟩
    | ok u =>
      cases u
      simp only [Bool.false_eq_true, if_false]
      cases hc : env.clearSnapshot name with
      | error e2 =>
        exact ⟨(backupPrelude env d k dOld dBak).1 ++ [Act.startBackup], [],
          by simp [andThen, hc]⟩
      | ok u =>
        cases u
        rw [andThen_ok _ _ (by simp [hc])]
        obtain ⟨suf, hsuf, _⟩ := publishMeta_trace env b
          ((backupPrelude env d k dOld dBak).1 ++ [Act.startBackup] ++
            [Act.upload, Act.clearSnapshot name])
        refine ⟨(backupPrelude env d k dOld dBak).1 ++ [Act.startBackup], suf, ?_⟩
        rw [hsuf]
        simp
  · intro hkeep
    subst hkeep
    have hclear : Act.clearSnapshot name ≠ Act.clearSnapshot ALL_SNAPSHOTS := by
      simp [hname]
    have hpre : Act.clearSnapshot name ∉ (backupPrelude env d k dOld dBak).1 := by
      intro hmem
      rcases hpmem _ hmem with h' | h' <;> simp_all
    cases hu : env.upload with
    | error e =>
      simp only [if_true]
      intro hmem
      rcases List.mem_append.1 hmem with h' | h'
      · rcases List.mem_append.1 h' with h'' | h''
        · exact hpre h''
        · simp at h''
      · simp at h'
    | ok u =>
      cases u
      simp only [if_true]
      rw [andThen_ok _ _ rfl]
      obtain ⟨suf, hsuf, hsufmem⟩ := publishMeta_trace env b
        ((backupPrelude env d k dOld dBak).1 ++ [Act.startBackup] ++ [Act.upload])
      rw [hsuf]
      intro hmem
      rcases List.mem_append.1 hmem with h' | h'
      · rcases List.mem_append.1 h' with h'' | h''
        · rcases List.mem_append.1 h'' with h3 | h3
          · exact hpre h3
          · simp at h3
        · simp at h''
      · rcases hsufmem _ h' with h'' | h'' | h'' <;> simp_all

/-- A nonempty first component fixes the head of an appended string. -/
theorem headIs_append_left (c : Char) (a b : String) (h : a.data ≠ []) :
    headIs c (a ++ b) = headIs c a := by
  unfold headIs
  rw [String.data_append]
  cases ha : a.data with
  | nil => exact absurd ha h
  | cons x xs => simp

/-- A nonempty second component fixes the last character of an appended
string. -/
theorem lastIs_append_right (c : Char) (a b : String) (h : b.data ≠ []) :
    lastIs c (a ++ b) = lastIs c b := by
  unfold lastIs
  rw [String.data_append, List.getLast?_append_of_ne_nil _ h]

/-- `os.path.join` inserts exactly one separator in the common case:
first component nonempty and not slash-terminated, second component not
absolute. -/
theorem pyJoin2_std (a n : String) (ha : a.data ≠ []) (hal : lastIs '/' a = false)
    (hn : headIs '/' n = false) :
    pyJoin2 a n = a ++ "/" ++ n := by
  unfold pyJoin2
  rw [if_neg (by simp [hn]), if_neg]
  simp [hal, List.isEmpty_iff, ha]

/-- C6: the destination of a matched file is
`<mergeDir>/<keyspace>/<table>/<sourceHost>_<originalFileName>`, and two
files with the same base name coming from different source hosts are
written to different destinations — neither overwrites the other.  The
side conditions say the components are ordinary path pieces: nonempty
merge directory, keyspace and table, none slash-terminated, and no
component or host absolute. -/
theorem dst_from_key_collision_free (md g2 g3 hostA hostB p1 p2 : String)
    (hmd : md.data ≠ []) (hmdl : lastIs '/' md = false)
    (hg2h : headIs '/' g2 = false) (hg2e : g2.data ≠ []) (hg2l : lastIs '/' g2 = false)
    (hg3h : headIs '/' g3 = false) (hg3e : g3.data ≠ []) (hg3l : lastIs '/' g3 = false)
    (hhA : headIs '/' hostA = false) (hhB : headIs '/' hostB = false)
    (hbase : baseNameOf p1 = baseNameOf p2) (hne : hostA ≠ hostB) :
    dst_from_key md hostA g2 g3 p1 =
      md ++ "/" ++ g2 ++ "/" ++ g3 ++ "/" ++ (hostA ++ "_" ++ baseNameOf p1) ∧
    dst_from_key md hostB g2 g3 p2 =
      md ++ "/" ++ g2 ++ "/" ++ g3 ++ "/" ++ (hostB ++ "_" ++ baseNameOf p2) ∧
    dst_from_key md hostA g2 g3 p1 ≠ dst_from_key md hostB g2 g3 p2 := by
  have hUnderscore : ("_" : String).data = ['_'] := rfl
  have hSlash : ("/" : String).data = ['/'] := rfl
  have mergeHead : ∀ g p : String, headIs '/' g = false →
      headIs '/' (g ++ "_" ++ baseNameOf p) = false := by
    intro g p hg
    cases hgd : g.data with
    | nil =>
      unfold headIs
      rw [String.data_append, String.data_append, hgd, hUnderscore]
      simp
    | cons x xs =>
      rw [headIs_append_left _ _ _ (by simp [String.data_append, hgd]),
        headIs_append_left _ _ _ (by simp [hgd])]
      exact hg
  have joinChain : ∀ host p : String, headIs '/' host = false →
      dst_from_key md host g2 g3 p =
        md ++ "/" ++ g2 ++ "/" ++ g3 ++ "/" ++ (host ++ "_" ++ baseNameOf p) := by
    intro host p hh
    have e1 : pyJoin2 md g2 = md ++ "/" ++ g2 := pyJoin2_std _ _ hmd hmdl hg2h
    have e1d : (md ++ "/" ++ g2).data ≠ [] := by
      simp [String.data_append, hg2e]
    have e1l : lastIs '/' (md ++ "/" ++ g2) = false := by
      rw [lastIs_append_right _ _ _ hg2e]; exact hg2l
    have e2 : pyJoin2 (md ++ "/" ++ g2) g3 = md ++ "/" ++ g2 ++ "/" ++ g3 :=
      pyJoin2_std _ _ e1d e1l hg3h
    have e2d : (md ++ "/" ++ g2 ++ "/" ++ g3).data ≠ [] := by
      simp [String.data_append, hg3e]
    have e2l : lastIs '/' (md ++ "/" ++ g2 ++ "/" ++ g3) = false := by
      rw [lastIs_append_right _ _ _ hg3e]; exact hg3l
    have e3 : pyJoin2 (md ++ "/" ++ g2 ++ "/" ++ g3) (host ++ "_" ++ baseNameOf p) =
        md ++ "/" ++ g2 ++ "/" ++ g3 ++ "/" ++ (host ++ "_" ++ baseNameOf p) :=
      pyJoin2_std _ _ e2d e2l (mergeHead host p hh)
    show pyJoin2 (pyJoin2 (pyJoin2 md g2) g3) (host ++ "_" ++ baseNameOf p) = _
    rw [e1, e2, e3]
  have eqA := joinChain hostA p1 hhA
  have eqB := joinChain hostB p2 hhB
  refine ⟨eqA, eqB, ?_⟩
  intro heq
  rw [eqA, eqB, hbase] at heq
  have hd := congrArg String.data heq
  simp only [String.data_append, List.append_assoc] at hd
  have hd1 := List.append_cancel_left hd
  have hd2 := List.append_cancel_left hd1
  have hd3 := List.append_cancel_left hd2
  have hd4 := List.append_cancel_left hd3
  have hd5 := List.append_cancel_left hd4
  have hd6 := List.append_cancel_left hd5
  exact hne (String.ext (List.append_cancel_right hd6))

/-! ## Concrete fixtures -/

def snapNew : Snapshot :=
  { name := "20230601120000", base_path := "base", s3_bucket := "bk",
    hosts := ["h1", "h2"], keyspaces := "ks1", table := "" }

def snapOld : Snapshot :=
  { name := "20230101000000", base_path := "base", s3_bucket := "bk",
    hosts := ["h1", "h2"], keyspaces := "ks1", table := "cf" }

def fetchFix : String → Option JVal := fun p =>
  if p = "base/20230101000000/manifest.json" then some snapOld.dump_manifest_file
  else if p = "base/20230601120000/manifest.json" then some snapNew.dump_manifest_file
  else none

def envOk : BackupEnv :=
  { clearBackups := .ok (), clearSnapshot := fun _ => .ok (), startBackup := .ok (),
    upload := .ok (), writeRing := .ok (), writeManifest := .ok (),
    writeSchema := .ok () }

def envStartFail : BackupEnv := { envOk with startBackup := .error "node snapshot failed" }

def attemptsFlaky : Nat → Except String Unit := fun i =>
  if i < 2 then .error "transient" else .ok ()

def attemptsDead : Nat → Except String Unit := fun _ => .error "down"

def findBackupsFix : String → List String := fun d =>
  [d ++ "/cf1/backups", d ++ "/cf2/backups"]

/-! ## Witnesses -/

/-- Witness for C1 at a registry of two snapshots where only the older
one matches the query. -/
theorem get_snapshot_for_spec_witness :
    matchesQuery snapOld ["h1", "h2"] "ks1" "cf" ∧
    ∃ l1 l2, [snapNew, snapOld] = l1 ++ snapOld :: l2 ∧
      ∀ x ∈ l1, ¬ matchesQuery x ["h1", "h2"] "ks1" "cf" :=
  (get_snapshot_for_spec [snapNew, snapOld] ["h1", "h2"] "ks1" "cf").2
    snapOld (by decide)

/-- Witness for C3: a registry populated from two manifests named
`20230101000000` and `20230601120000` lists the June snapshot first,
and the theorem applies to the populated list. -/
theorem readS3List_sorted_desc_witness :
    ([snapNew, snapOld]).Pairwise (fun a b => ∀ ta tb,
      a.unix_time_name = some ta → b.unix_time_name = some tb → tb ≤ ta) :=
  readS3List_sorted_desc "base" "bk"
    ["base/20230101000000", "base/20230601120000"] fetchFix
    [snapNew, snapOld] (by decide)

/-- Witness for C4 at an environment whose snapshot step fails. -/
theorem backupSnapshot_start_failure_witness :
    (backupSnapshot envStartFail "20230601120000" true true true false true true).2 =
      .error "node snapshot failed" ∧
    (∃ l1, (backupSnapshot envStartFail "20230601120000" true true true false true true).1 =
      l1 ++ [Act.startBackup, Act.clearSnapshot "20230601120000"]) ∧
    Act.upload ∉ (backupSnapshot envStartFail "20230601120000" true true true false true true).1 ∧
    Act.writeRing ∉ (backupSnapshot envStartFail "20230601120000" true true true false true true).1 ∧
    Act.writeManifest ∉ (backupSnapshot envStartFail "20230601120000" true true true false true true).1 ∧
    Act.writeSchema ∉ (backupSnapshot envStartFail "20230601120000" true true true false true true).1 :=
  backupSnapshot_start_failure envStartFail "20230601120000" true true true
    false true true "node snapshot failed" rfl rfl rfl rfl

/-- Witness for C5 with a successful snapshot step and
`keep_new_snapshot = false`. -/
theorem backupSnapshot_upload_cleanup_witness :
    (false = false → ∃ l1 l2,
      (backupSnapshot envOk "20230601120000" false false false false false false).1 =
        l1 ++ Act.upload :: Act.clearSnapshot "20230601120000" :: l2) ∧
    (false = true →
      Act.clearSnapshot "20230601120000" ∉
        (backupSnapshot envOk "20230601120000" false false false false false false).1) :=
  backupSnapshot_upload_cleanup envOk "20230601120000" false false false
    false false false rfl rfl rfl (by decide)

/-- Witness for C6 at hosts `nodeA`, `nodeB`, both holding a file named
`data.db` under keyspace `ks1`, table `cf1`. -/
theorem dst_from_key_collision_free_witness :
    dst_from_key "merge" "nodeA" "ks1" "cf1" "nodeA/snap/ks1/cf1/data.db" =
      "merge" ++ "/" ++ "ks1" ++ "/" ++ "cf1" ++ "/" ++
        ("nodeA" ++ "_" ++ baseNameOf "nodeA/snap/ks1/cf1/data.db") ∧
    dst_from_key "merge" "nodeB" "ks1" "cf1" "nodeB/snap/ks1/cf1/data.db" =
      "merge" ++ "/" ++ "ks1" ++ "/" ++ "cf1" ++ "/" ++
        ("nodeB" ++ "_" ++ baseNameOf "nodeB/snap/ks1/cf1/data.db") ∧
    dst_from_key "merge" "nodeA" "ks1" "cf1" "nodeA/snap/ks1/cf1/data.db" ≠
      dst_from_key "merge" "nodeB" "ks1" "cf1" "nodeB/snap/ks1/cf1/data.db" :=
  dst_from_key_collision_free "merge" "ks1" "cf1" "nodeA" "nodeB"
    "nodeA/snap/ks1/cf1/data.db" "nodeB/snap/ks1/cf1/data.db"
    (by decide) (by decide) (by decide) (by decide) (by decide) (by decide)
    (by decide) (by decide) (by decide) (by decide) (by decide) (by decide)

/-- Witness for C7: an item failing its first two attempts succeeds on
the third with its size reported; an item failing all three attempts
propagates the last error. -/
theorem download_snappy_key_retry_witness :
    download_snappy_key attemptsFlaky 9 = .ok (some 9) ∧
    download_snappy_key attemptsDead 9 = .error "down" := by
  constructor
  · exact (download_snappy_key_retry attemptsFlaky 9).1 2 (by decide)
      (fun i hi => by interval_cases i <;> exact ⟨"transient", rfl⟩) rfl
  · exact (download_snappy_key_retry attemptsDead 9).2 "down" "down" "down"
      rfl rfl rfl

/-- Witness for the amended C8: a first listing that finds one snapshot
is cached, and a later access with different arguments reuses it
without listing. -/
theorem readS3Step_cache_amended_witness :
    (readS3Step "base" "bk" ["base/20230601120000"] fetchFix none).2.1 = true ∧
    readS3Step "other" "bk2" [] (fun _ => none) (some [snapNew]) =
      (some [snapNew], false, false) :=
  ⟨(readS3Step_cache_amended "base" "bk" "other" "bk2"
      ["base/20230601120000"] [] fetchFix (fun _ => none)).1,
    (readS3Step_cache_amended "base" "bk" "other" "bk2"
      ["base/20230601120000"] [] fetchFix (fun _ => none)).2
      [snapNew] (by decide) (by decide)⟩

/-- Witness for C10: two keyspaces, empty table filter — only the
second keyspace's backups directories are deleted. -/
theorem clear_node_backups_last_keyspace_only_witness :
    clear_node_backups "/var/data" "ks1,ks2" "" [] findBackupsFix =
      findBackupsFix (pyJoin2 "/var/data" ((pySplit "ks1,ks2" ',').getLastD "")) :=
  clear_node_backups_last_keyspace_only "/var/data" "ks1,ks2" "" []
    findBackupsFix (by decide) (by decide) (by decide)

end CassandraSnapshotter
